import Mathlib

/-!
Verification of the RBAC core of the property-evaluation service.

A shallow embedding of the identity/role/permission data model
(`app/domain/rbac_models.py`) and the `RBACService` operations
(`app/services/rbac_service.py`).  The relational store is modelled as an
explicit state (`DB`): each ORM table is a list of rows, and the two
many-to-many association tables are lists of id pairs.  ORM relationship
traversal (`user.roles`, `role.permissions`) is modelled as filtering the
row lists through the association lists.  Fallible service methods (which
raise `HTTPException` in the source) return `Except RbacError`.
-/

namespace RBAC

/-- A row of the `permissions` table (`rbac_models.py`, class `Permission`).
The `created_at` timestamp is omitted: no embedded operation reads it. -/
structure Permission where
  id : Nat
  action : String
  resource : String
  description : Option String := none
deriving DecidableEq, Repr

/-- A row of the `roles` table (`rbac_models.py`, class `Role`).
The `created_at` timestamp is omitted: no embedded operation reads it. -/
structure Role where
  id : Nat
  name : String
  description : Option String := none
deriving DecidableEq, Repr

/-- A row of the `users` table (`rbac_models.py`, class `User`).  The
password hash, profile and timestamp columns are omitted: no embedded
operation reads them. -/
structure User where
  id : Nat
  username : String
  email : String
  is_active : Bool := true
deriving DecidableEq, Repr

/-- The relational store.  `user_roles` and `role_permissions` are the two
association tables of `rbac_models.py` (lists of `(user_id, role_id)` and
`(role_id, permission_id)` pairs).  `next_role_id` / `next_permission_id`
model the autoincrement id sequences of the `roles` / `permissions`
tables. -/
structure DB where
  users : List User
  roles : List Role
  permissions : List Permission
  user_roles : List (Nat × Nat)
  role_permissions : List (Nat × Nat)
  next_role_id : Nat
  next_permission_id : Nat
deriving DecidableEq, Repr

/-- The empty store. -/
def emptyDB : DB :=
  { users := [], roles := [], permissions := [], user_roles := [],
    role_permissions := [], next_role_id := 1, next_permission_id := 1 }

/-- Errors raised by the service layer: `http s d` models
`HTTPException(status_code = s, detail = d)`; `compileError` models the
SQLAlchemy `CompileError` raised when an insert names a column the table
does not have ("Unconsumed column names"); `integrityError` models the
SQLAlchemy `IntegrityError` raised at commit when a primary-key
constraint is violated. -/
inductive RbacError where
  | http (statusCode : Nat) (detail : String)
  | compileError (msg : String)
  | integrityError (msg : String)
deriving DecidableEq, Repr

/-- The ORM relationship `user.roles`: roles joined through the
`user_roles` association table. -/
def rolesOf (db : DB) (u : User) : List Role :=
  db.roles.filter (fun r => db.user_roles.any (fun q => q.1 == u.id && q.2 == r.id))

/-- The ORM relationship `role.permissions`: permissions joined through the
`role_permissions` association table. -/
def permissionsOf (db : DB) (r : Role) : List Permission :=
  db.permissions.filter (fun p => db.role_permissions.any (fun q => q.1 == r.id && q.2 == p.id))

/-- Method `User.has_role` (`rbac_models.py` lines 58-60): true iff any held role
has the given name. -/
def User.has_role (db : DB) (u : User) (role_name : String) : Bool :=
  (rolesOf db u).any (fun r => r.name == role_name)

/-- Method `User.has_permission` (`rbac_models.py` lines 62-68): the nested loop
over the user's roles and each role's permissions, returning true on the
first exact (action, resource) match. -/
def User.has_permission (db : DB) (u : User) (action resource : String) : Bool :=
  (rolesOf db u).any (fun role =>
    (permissionsOf db role).any (fun p => p.action == action && p.resource == resource))

/-- Service method `get_user_by_id`: `.filter(User.id == user_id).first()`. -/
def get_user_by_id (db : DB) (user_id : Nat) : Option User :=
  db.users.find? (fun u => u.id == user_id)

/-- Service method `get_role_by_id`: `.filter(Role.id == role_id).first()`. -/
def get_role_by_id (db : DB) (role_id : Nat) : Option Role :=
  db.roles.find? (fun r => r.id == role_id)

/-- Service method `get_role_by_name`: `.filter(Role.name == role_name).first()`. -/
def get_role_by_name (db : DB) (role_name : String) : Option Role :=
  db.roles.find? (fun r => r.name == role_name)

/-- Service method `check_user_permission` (`rbac_service.py` lines 346-352):
resolve the user by id, return `false` when absent, else delegate to
`User.has_permission`. -/
def check_user_permission (db : DB) (user_id : Nat) (action resource : String) : Bool :=
  match get_user_by_id db user_id with
  | none => false
  | some user => User.has_permission db user action resource

/-- One entry of the `RBACService.get_user_permissions` result: the dict
`{"action": ..., "resource": ..., "role": ...}`. -/
structure PermissionEntry where
  action : String
  resource : String
  role : String
deriving DecidableEq, Repr

/-- Service method `get_user_permissions` (`rbac_service.py` lines 354-368):
`[]` for an unknown user id, else one entry per (held role, granted
permission) pair, in nested-loop order, without deduplication. -/
def get_user_permissions (db : DB) (user_id : Nat) : List PermissionEntry :=
  match get_user_by_id db user_id with
  | none => []
  | some user =>
    (rolesOf db user).flatMap (fun role =>
      (permissionsOf db role).map (fun p =>
        { action := p.action, resource := p.resource, role := role.name }))

/-- The request body of a role assignment (`rbac_schemas.UserRoleAssign`):
`user_id`, `role_id` and an optional `assigned_by`. -/
structure UserRoleAssign where
  user_id : Nat
  role_id : Nat
  assigned_by : Option Nat := none
deriving DecidableEq, Repr

/-- The columns of the `user_roles` association table as declared in
`rbac_models.py` lines 15-20: only `user_id` and `role_id`. -/
def user_roles_columns : List String := ["user_id", "role_id"]

/-- Modelled library behaviour (SQLAlchemy, outside the repository):
executing `user_roles.insert().values(...)` checks the keys of `values`
against the table's declared columns; a key that is not a column raises
`CompileError` ("Unconsumed column names: ...") and inserts nothing,
otherwise the `(user_id, role_id)` row is appended. -/
def execute_user_roles_insert (db : DB) (value_keys : List String)
    (uid rid : Nat) : Except RbacError DB :=
  if value_keys.all (fun k => user_roles_columns.contains k) then
    Except.ok { db with user_roles := db.user_roles ++ [(uid, rid)] }
  else
    Except.error (RbacError.compileError "Unconsumed column names: assigned_by")

/-- Service method `assign_role_to_user` (`rbac_service.py` lines 212-257):
resolve the user (404), resolve the role (404), check for an existing
association row (400 Conflict), then execute
`user_roles.insert().values(user_id=..., role_id=..., assigned_by=...)` —
three value keys, against a two-column table. -/
def assign_role_to_user (db : DB) (assignment : UserRoleAssign) :
    Except RbacError (DB × Nat × Nat) :=
  match get_user_by_id db assignment.user_id with
  | none => Except.error (RbacError.http 404 "User not found")
  | some _ =>
    match get_role_by_id db assignment.role_id with
    | none => Except.error (RbacError.http 404 "Role not found")
    | some _ =>
      if db.user_roles.any (fun q =>
          q.1 == assignment.user_id && q.2 == assignment.role_id) then
        Except.error (RbacError.http 400 "User already has this role")
      else
        match execute_user_roles_insert db ["user_id", "role_id", "assigned_by"]
            assignment.user_id assignment.role_id with
        | Except.error e => Except.error e
        | Except.ok db1 => Except.ok (db1, assignment.user_id, assignment.role_id)

/-- Service method `remove_role_from_user` (`rbac_service.py` lines 259-275):
execute the delete, then test the affected-row count; 404 when zero. -/
def remove_role_from_user (db : DB) (user_id role_id : Nat) :
    Except RbacError DB :=
  if db.user_roles.countP (fun q => q.1 == user_id && q.2 == role_id) == 0 then
    Except.error (RbacError.http 404 "Role assignment not found")
  else
    Except.ok { db with
      user_roles := db.user_roles.filter (fun q => !(q.1 == user_id && q.2 == role_id)) }

/-- The request body of role creation (`rbac_schemas.RoleCreate`). -/
structure RoleCreate where
  name : String
  description : Option String := none
  permission_names : List String := []
deriving DecidableEq, Repr

/-- Split a character list at the first colon: `none` when no colon
occurs, else the characters before it and the untouched characters after
it. -/
def split_once_colon : List Char → Option (List Char × List Char)
  | [] => none
  | c :: rest =>
    if c = ':' then some ([], rest)
    else
      match split_once_colon rest with
      | none => none
      | some ab => some (c :: ab.1, ab.2)

/-- Python's `perm_name.split(":", 1) if ":" in perm_name else (perm_name, "*")`
(`rbac_service.py` line 125): split at the first colon, keeping any later
colons inside the resource part; when there is no colon the resource
defaults to `"*"`. -/
def split_perm_name (perm_name : String) : String × String :=
  match split_once_colon perm_name.data with
  | none => (perm_name, "*")
  | some ab => (String.mk ab.1, String.mk ab.2)

/-- The permission lookup inside the `create_role` loop: split the name,
then `.filter(Permission.action == action, Permission.resource == resource).first()`. -/
def resolve_perm_name (db : DB) (perm_name : String) : Option Permission :=
  let ar := split_perm_name perm_name
  db.permissions.find? (fun p => p.action == ar.1 && p.resource == ar.2)

/-- Modelled store behaviour (the composite primary key on
`role_permissions`, `rbac_models.py` lines 22-27): committing appended
association rows raises `IntegrityError` when an appended row repeats a
row already in the table or another appended row — as happens when the
same permission object is appended to the list-backed collection twice —
and otherwise persists the rows. -/
def commit_role_permissions (db : DB) (new_rows : List (Nat × Nat)) :
    Except RbacError DB :=
  if new_rows.Nodup ∧ ∀ q ∈ new_rows, q ∉ db.role_permissions then
    Except.ok { db with role_permissions := db.role_permissions ++ new_rows }
  else
    Except.error (RbacError.integrityError
      "UNIQUE constraint failed: role_permissions.role_id, role_permissions.permission_id")

/-- Service method `create_role` (`rbac_service.py` lines 106-135): 400 when a
role with the name exists, else insert the role, then for each entry of
`permission_names` resolve it and append the permission when found —
unresolved names are skipped.  The appended membership rows are persisted
by the final `commit()`, which enforces the composite primary key of
`role_permissions`.  (The source resolves against the session after the
role insert, which leaves the `permissions` table untouched, so resolution
reads the same permission rows.) -/
def create_role (db : DB) (role_data : RoleCreate) :
    Except RbacError (DB × Role) :=
  match get_role_by_name db role_data.name with
  | some _ => Except.error (RbacError.http 400 "Role already exists")
  | none =>
    let rid := db.next_role_id
    let role : Role := { id := rid, name := role_data.name, description := role_data.description }
    let db1 : DB := { db with roles := db.roles ++ [role], next_role_id := rid + 1 }
    let resolved := role_data.permission_names.filterMap (resolve_perm_name db1)
    match commit_role_permissions db1 (resolved.map (fun p => (rid, p.id))) with
    | Except.error e => Except.error e
    | Except.ok db2 => Except.ok (db2, role)

/-- The nine built-in (action, resource, description) triples of
`initialize_default_data` (`rbac_service.py` lines 374-384). -/
def default_permissions : List (String × String × String) :=
  [("read", "collateral_evaluation", "View collateral evaluation data"),
   ("edit", "collateral_evaluation", "Edit collateral evaluation data"),
   ("clear", "collateral_evaluation", "Clear collateral evaluation data"),
   ("authorize", "collateral_evaluation", "Authorize collateral evaluation"),
   ("comment", "collateral_evaluation", "Add comments to evaluations"),
   ("read", "user_management", "View user information"),
   ("edit", "user_management", "Manage users"),
   ("read", "role_management", "View roles and permissions"),
   ("edit", "role_management", "Manage roles and permissions")]

/-- The four built-in (role name, description) pairs of
`initialize_default_data` (`rbac_service.py` lines 402-407). -/
def default_roles : List (String × String) :=
  [("Viewer", "Can only view collateral evaluation data"),
   ("Inputter", "Can input and edit collateral evaluation data"),
   ("Authorizer", "Can authorize collateral evaluations and manage the system"),
   ("Admin", "Full system administration access")]

/-- Existence check of one iteration of the permission-seeding loop:
`.filter(Permission.action == action, Permission.resource == resource).first()`. -/
def permission_exists (db : DB) (action resource : String) : Bool :=
  db.permissions.any (fun p => p.action == action && p.resource == resource)

/-- Existence check of one iteration of the role-seeding loop. -/
def role_exists (db : DB) (role_name : String) : Bool :=
  db.roles.any (fun r => r.name == role_name)

/-- One iteration of the permission-seeding loop (`rbac_service.py` lines
386-397): insert the built-in permission unless a row with its
(action, resource) pair already exists. -/
def seed_permission (db : DB) (t : String × String × String) : DB :=
  if permission_exists db t.1 t.2.1 then db
  else
    { db with
      permissions := db.permissions ++
        [{ id := db.next_permission_id, action := t.1, resource := t.2.1,
           description := some t.2.2 }],
      next_permission_id := db.next_permission_id + 1 }

/-- The declarative permission query keyed on the role name
(`rbac_service.py` lines 416-430).  The source's if/elif chain covers
exactly the four built-in names; the final `[]` branch is unreachable for
the built-in role list. -/
def role_permission_query (db : DB) (role_name : String) : List Permission :=
  if role_name == "Viewer" then
    db.permissions.filter (fun p => p.action == "read")
  else if role_name == "Inputter" then
    db.permissions.filter (fun p =>
      p.action == "read" || p.action == "edit" || p.action == "clear")
  else if role_name == "Authorizer" then
    db.permissions.filter (fun p =>
      p.action == "read" || p.action == "edit" || p.action == "authorize" || p.action == "comment")
  else if role_name == "Admin" then
    db.permissions
  else []

/-- One iteration of the role-seeding loop (`rbac_service.py` lines
409-433): when no role with the name exists, insert it and attach the
declaratively-chosen permission set; when the role already exists, do
nothing — the attach block sits inside the "role did not exist" branch. -/
def seed_role (db : DB) (t : String × String) : DB :=
  if role_exists db t.1 then db
  else
    let rid := db.next_role_id
    let db1 : DB := { db with
      roles := db.roles ++ [{ id := rid, name := t.1, description := some t.2 }],
      next_role_id := rid + 1 }
    { db1 with
      role_permissions := db1.role_permissions ++
        (role_permission_query db1 t.1).map (fun p => (rid, p.id)) }

/-- Service method `initialize_default_data` (`rbac_service.py` lines
371-435): seed the nine built-in permissions, then the four built-in
roles. -/
def initialize_default_data (db : DB) : DB :=
  default_roles.foldl seed_role (default_permissions.foldl seed_permission db)

/-! Concrete store states used to exercise the operations. -/

/-- A store with one user and one role and no association yet. -/
def dbAssign : DB :=
  { emptyDB with
    users := [{ id := 1, username := "alice", email := "alice@bank.example" }],
    roles := [{ id := 1, name := "Viewer" }],
    next_role_id := 2 }

/-- A user holding two roles that both grant the same permission. -/
def userShared : User := { id := 1, username := "bob", email := "bob@bank.example" }

/-- A store where `userShared` holds two roles, each granting the single
permission, so the flattened permission list has a repeat. -/
def dbShared : DB :=
  { emptyDB with
    users := [userShared],
    roles := [{ id := 1, name := "Viewer" }, { id := 2, name := "Auditor" }],
    permissions := [{ id := 1, action := "read", resource := "collateral_evaluation" }],
    user_roles := [(1, 1), (1, 2)],
    role_permissions := [(1, 1), (2, 1)],
    next_role_id := 3, next_permission_id := 2 }

/-- A store with a single permission and no roles, for role creation. -/
def dbCreate : DB :=
  { emptyDB with
    permissions := [{ id := 1, action := "read", resource := "collateral_evaluation" }],
    next_permission_id := 2 }

/-- A role-creation request naming one resolvable permission and two
unresolvable ones. -/
def rdCreate : RoleCreate :=
  { name := "Reporter",
    permission_names := ["read:collateral_evaluation", "bogus:nothing", "write"] }

/-- A role-creation request repeating the same resolvable permission
name. -/
def rdDup : RoleCreate :=
  { name := "Auditor",
    permission_names := ["read:collateral_evaluation", "read:collateral_evaluation"] }

/-- A store that already contains a "Viewer" role (with a permission grant
outside the built-in catalog) before the bootstrapper runs. -/
def dbGap : DB :=
  { emptyDB with
    roles := [{ id := 1, name := "Viewer" }],
    permissions := [{ id := 1, action := "edit", resource := "branch_report" }],
    role_permissions := [(1, 1)],
    next_role_id := 2, next_permission_id := 2 }

/-- A store with one user holding one of two roles, for role removal. -/
def dbRemove : DB :=
  { emptyDB with
    users := [{ id := 1, username := "carol", email := "carol@bank.example" }],
    roles := [{ id := 1, name := "Viewer" }, { id := 2, name := "Inputter" }],
    user_roles := [(1, 1)],
    next_role_id := 3 }

/-- A concrete user for the seeded-catalog scenario. -/
def userSeeded : User := { id := 1, username := "root", email := "root@bank.example" }

/-! Helper lemmas shared by the claim theorems. -/

/-- Resolution of a permission name reads only the `permissions` table, so
inserting a role (which touches `roles` and the id sequence) does not
change it. -/
theorem resolve_perm_name_roles_irrelevant (db : DB) (roles' : List Role) (n : Nat) :
    resolve_perm_name { db with roles := roles', next_role_id := n } =
      resolve_perm_name db := rfl

/-- Dropping the elements on which `f` returns `none` does not change a
`filterMap`. -/
theorem filterMap_filter_isSome {α β : Type} (f : α → Option β) (l : List α) :
    (l.filter (fun a => (f a).isSome)).filterMap f = l.filterMap f := by
  induction l with
  | nil => rfl
  | cons a l ih =>
    cases hfa : f a with
    | none => simp [List.filter_cons, List.filterMap_cons, hfa, ih]
    | some b => simp [List.filter_cons, List.filterMap_cons, hfa, ih]

/-- An insert into `user_roles` carrying the `assigned_by` value key always
raises: the key is not among the table's two columns. -/
theorem execute_insert_assigned_by_raises (db : DB) (uid rid : Nat) :
    execute_user_roles_insert db ["user_id", "role_id", "assigned_by"] uid rid =
      Except.error (RbacError.compileError "Unconsumed column names: assigned_by") := rfl

/-! The claims. -/

/-- Claim C1: for every user u, action a and resource r,
`has_permission(u, a, r)` returns true if and only if some role held by u
grants a permission whose action and resource are exactly a and r — the
effective permission set is the union over the user's roles of each
role's permissions. -/
theorem C1_has_permission_iff (db : DB) (u : User) (a r : String) :
    User.has_permission db u a r = true ↔
      ∃ role ∈ rolesOf db u, ∃ p ∈ permissionsOf db role,
        p.action = a ∧ p.resource = r := by
  simp [User.has_permission, List.any_eq_true, Bool.and_eq_true, beq_iff_eq]

/-- Claim C2 (code bug): assigning an existing role to an existing user is
claimed to succeed on the first call, but the very first call already
raises: the insert passes an `assigned_by` value although the `user_roles`
table has no such column, which SQLAlchemy rejects with a `CompileError`
before any row is written. -/
theorem C2_first_assignment_raises :
    assign_role_to_user dbAssign { user_id := 1, role_id := 1 } =
      Except.error (RbacError.compileError "Unconsumed column names: assigned_by") := rfl

/-- Claim C3: for a user id that resolves to no user,
`check_user_permission` returns false for every action and resource — the
function is total (never raises) and fails closed. -/
theorem C3_unknown_user_denied (db : DB) (uid : Nat) (a r : String)
    (h : get_user_by_id db uid = none) :
    check_user_permission db uid a r = false := by
  simp [check_user_permission, h]

/-- Witness for C3 at a concrete store and id. -/
theorem C3_unknown_user_denied_witness :
    get_user_by_id emptyDB 42 = none ∧
      check_user_permission emptyDB 42 "read" "collateral_evaluation" = false :=
  ⟨rfl, C3_unknown_user_denied emptyDB 42 "read" "collateral_evaluation" rfl⟩

/-- Claim C8 (code bug): whenever the three pre-checks of
`assign_role_to_user` pass (user exists, role exists, no existing
association), the insert is claimed to succeed — instead it always raises
the `CompileError` for the unconsumed `assigned_by` column, so no
association row is ever written and no `assigned_by` value can be
recorded. -/
theorem C8_assign_after_prechecks_raises (db : DB) (a : UserRoleAssign)
    (hu : ∃ u, get_user_by_id db a.user_id = some u)
    (hr : ∃ r, get_role_by_id db a.role_id = some r)
    (hx : db.user_roles.any (fun q => q.1 == a.user_id && q.2 == a.role_id) = false) :
    assign_role_to_user db a =
      Except.error (RbacError.compileError "Unconsumed column names: assigned_by") := by
  obtain ⟨u, hu⟩ := hu
  obtain ⟨r, hr⟩ := hr
  unfold assign_role_to_user
  rw [hu, hr, hx]
  simp [execute_insert_assigned_by_raises]

/-- Witness for C8: a store where the pre-checks pass and the call still
raises. -/
theorem C8_assign_after_prechecks_raises_witness :
    assign_role_to_user dbAssign { user_id := 1, role_id := 1, assigned_by := some 7 } =
      Except.error (RbacError.compileError "Unconsumed column names: assigned_by") :=
  C8_assign_after_prechecks_raises dbAssign
    { user_id := 1, role_id := 1, assigned_by := some 7 } ⟨_, rfl⟩ ⟨_, rfl⟩ rfl

/-- Claim C9: `get_user_permissions` returns the empty list (without
raising) for an unknown user id, and for an existing user returns one
entry per (held role, granted permission) pair — its length is the sum
over held roles of the role's permission count, so the same
(action, resource) acquired via different roles appears repeatedly. -/
theorem C9_get_user_permissions_spec (db : DB) (uid : Nat) :
    (get_user_by_id db uid = none → get_user_permissions db uid = [])
    ∧ (∀ u, get_user_by_id db uid = some u →
        (get_user_permissions db uid).length =
          ((rolesOf db u).map (fun role => (permissionsOf db role).length)).sum
        ∧ ∀ e, e ∈ get_user_permissions db uid ↔
            ∃ role ∈ rolesOf db u, ∃ p ∈ permissionsOf db role,
              e = { action := p.action, resource := p.resource, role := role.name }) := by
  constructor
  · intro h
    unfold get_user_permissions
    rw [h]
  · intro u hu
    unfold get_user_permissions
    rw [hu]
    constructor
    · simp [List.length_flatMap, Function.comp_def, List.length_map]
    · intro e
      simp only [List.mem_flatMap, List.mem_map]
      constructor
      · rintro ⟨role, hrole, p, hp, rfl⟩
        exact ⟨role, hrole, p, hp, rfl⟩
      · rintro ⟨role, hrole, p, hp, rfl⟩
        exact ⟨role, hrole, p, hp, rfl⟩

/-- Witness for C9: an unknown id yields `[]`, and a user holding two roles
that grant the same single permission gets a two-entry list. -/
theorem C9_get_user_permissions_spec_witness :
    get_user_permissions dbShared 99 = [] ∧
      (get_user_permissions dbShared 1).length =
        ((rolesOf dbShared userShared).map
          (fun role => (permissionsOf dbShared role).length)).sum :=
  ⟨(C9_get_user_permissions_spec dbShared 99).1 rfl,
   ((C9_get_user_permissions_spec dbShared 1).2 userShared rfl).1⟩

/-- Commit succeeds exactly when the appended rows are duplicate-free and
new to the table. -/
theorem commit_role_permissions_ok (db : DB) (rows : List (Nat × Nat))
    (h1 : rows.Nodup) (h2 : ∀ q ∈ rows, q ∉ db.role_permissions) :
    commit_role_permissions db rows =
      Except.ok { db with role_permissions := db.role_permissions ++ rows } := by
  unfold commit_role_permissions
  rw [if_pos ⟨h1, h2⟩]

/-- Counterexample to C10 as stated: with a fresh role name but a
duplicated resolvable permission name, `create_role` does not create the
role — the two identical pending association inserts make the commit fail
on the `role_permissions` composite primary key with `IntegrityError`. -/
theorem C10_duplicate_name_fails :
    get_role_by_name dbCreate rdDup.name = none ∧
    create_role dbCreate rdDup = Except.error (RbacError.integrityError
      "UNIQUE constraint failed: role_permissions.role_id, role_permissions.permission_id") ∧
    ¬ ∃ db1 role, create_role dbCreate rdDup = Except.ok (db1, role) := by
  refine ⟨rfl, rfl, ?_⟩
  rintro ⟨db1, role, hok⟩
  rw [show create_role dbCreate rdDup = Except.error (RbacError.integrityError
      "UNIQUE constraint failed: role_permissions.role_id, role_permissions.permission_id")
    from rfl] at hok
  exact Except.noConfusion hok

/-- Claim C10 (amended): when the role name is fresh, the resolved
permissions are pairwise distinct, and the store's membership rows all
belong to already-allocated role ids, `create_role` succeeds: each name is
split at the first ":" (resource defaulting to "*"), names resolving to no
permission are silently skipped, the created role holds exactly the
permissions that did resolve, and the result is unchanged when the
unresolvable names are dropped from the request.  (Without the
distinctness proviso the commit fails on the `role_permissions` composite
primary key — never because of an unresolvable name.) -/
theorem C10_create_role_skips_unresolvable (db : DB) (rd : RoleCreate)
    (h : get_role_by_name db rd.name = none)
    (hdup : ((rd.permission_names.filterMap (resolve_perm_name db)).map Permission.id).Nodup)
    (hfresh : ∀ q ∈ db.role_permissions, q.1 < db.next_role_id) :
    (∃ db1, create_role db rd =
        Except.ok (db1,
          { id := db.next_role_id, name := rd.name, description := rd.description })
      ∧ db1.role_permissions = db.role_permissions ++
          (rd.permission_names.filterMap (resolve_perm_name db)).map
            (fun p => (db.next_role_id, p.id)))
    ∧ create_role db rd = create_role db
        { rd with permission_names :=
            rd.permission_names.filter (fun nm => (resolve_perm_name db nm).isSome) } := by
  have hrows : ((rd.permission_names.filterMap (resolve_perm_name db)).map
      (fun p => (db.next_role_id, p.id))).Nodup := by
    rw [show (fun (p : Permission) => (db.next_role_id, p.id))
        = (fun i => (db.next_role_id, i)) ∘ Permission.id from rfl, ← List.map_map]
    exact hdup.map (fun a b hab => congrArg Prod.snd hab)
  have hnew : ∀ q ∈ (rd.permission_names.filterMap (resolve_perm_name db)).map
      (fun p => (db.next_role_id, p.id)), q ∉ db.role_permissions := by
    intro q hq hmem
    rw [List.mem_map] at hq
    obtain ⟨p, _, rfl⟩ := hq
    exact absurd (hfresh _ hmem) (lt_irrefl _)
  constructor
  · unfold create_role
    rw [h]
    simp only [resolve_perm_name_roles_irrelevant]
    rw [commit_role_permissions_ok
      { db with roles := db.roles ++ [{ id := db.next_role_id, name := rd.name, description := rd.description }], next_role_id := db.next_role_id + 1 }
      ((rd.permission_names.filterMap (resolve_perm_name db)).map (fun p => (db.next_role_id, p.id)))
      hrows hnew]
    exact ⟨_, rfl, rfl⟩
  · unfold create_role
    rw [show ({ rd with permission_names := rd.permission_names.filter (fun nm => (resolve_perm_name db nm).isSome) } : RoleCreate).name = rd.name from rfl]
    rw [h]
    simp only [resolve_perm_name_roles_irrelevant, filterMap_filter_isSome]

/-- Witness for C10 at a concrete store and a request naming one
resolvable and two unresolvable permissions. -/
theorem C10_create_role_skips_unresolvable_witness :
    (∃ db1, create_role dbCreate rdCreate =
        Except.ok (db1,
          { id := dbCreate.next_role_id, name := rdCreate.name,
            description := rdCreate.description })
      ∧ db1.role_permissions = dbCreate.role_permissions ++
          (rdCreate.permission_names.filterMap (resolve_perm_name dbCreate)).map
            (fun p => (dbCreate.next_role_id, p.id)))
    ∧ create_role dbCreate rdCreate = create_role dbCreate
        { rdCreate with permission_names := rdCreate.permission_names.filter (fun nm => (resolve_perm_name dbCreate nm).isSome) } :=
  C10_create_role_skips_unresolvable dbCreate rdCreate rfl (by decide) (by decide)

/-- Claim C7: `remove_role_from_user` fails NotFound exactly when no
association row for the pair exists (decided by the affected-row count of
the delete); when a row exists the call succeeds, and afterwards
`has_role` is false for the removed role's name, provided the user holds
no other role carrying that name. -/
theorem C7_remove_role_from_user (db : DB) (uid rid : Nat) :
    (remove_role_from_user db uid rid =
        Except.error (RbacError.http 404 "Role assignment not found")
      ↔ db.user_roles.any (fun q => q.1 == uid && q.2 == rid) = false)
    ∧ (∀ db1, remove_role_from_user db uid rid = Except.ok db1 →
        ∀ role, get_role_by_id db rid = some role →
        (∀ r' ∈ db.roles, r'.id ≠ rid →
          db.user_roles.any (fun q => q.1 == uid && q.2 == r'.id) = true →
          r'.name ≠ role.name) →
        ∀ u, get_user_by_id db1 uid = some u →
          User.has_role db1 u role.name = false) := by
  constructor
  · constructor
    · intro h
      unfold remove_role_from_user at h
      split at h
      case isTrue hc =>
        rw [List.any_eq_false]
        intro q hq
        have h0 : db.user_roles.countP (fun q => q.1 == uid && q.2 == rid) = 0 := by
          simpa using hc
        exact List.countP_eq_zero.mp h0 q hq
      case isFalse hc => cases h
    · intro h
      unfold remove_role_from_user
      have h0 : db.user_roles.countP (fun q => q.1 == uid && q.2 == rid) = 0 :=
        List.countP_eq_zero.mpr (List.any_eq_false.mp h)
      simp [h0]
  · intro db1 h role _ hother u hu
    unfold remove_role_from_user at h
    split at h
    case isTrue hc => cases h
    case isFalse hc =>
      have hdb1 : db1 = { db with
          user_roles := db.user_roles.filter (fun q => !(q.1 == uid && q.2 == rid)) } := by
        cases h
        rfl
      subst hdb1
      have huid : u.id = uid := by
        unfold get_user_by_id at hu
        have := List.find?_some hu
        simpa using this
      unfold User.has_role
      rw [List.any_eq_false]
      intro r hrmem
      unfold rolesOf at hrmem
      rw [List.mem_filter] at hrmem
      obtain ⟨hrroles, hrassoc⟩ := hrmem
      rw [List.any_eq_true] at hrassoc
      obtain ⟨q, hqmem, hq⟩ := hrassoc
      rw [List.mem_filter] at hqmem
      obtain ⟨hqorig, hqkeep⟩ := hqmem
      rw [Bool.and_eq_true, beq_iff_eq, beq_iff_eq] at hq
      obtain ⟨hq1, hq2⟩ := hq
      have hrid : r.id ≠ rid := by
        intro hEq
        rw [hq1, huid, hq2, hEq] at hqkeep
        simp at hqkeep
      have hheld : db.user_roles.any (fun p => p.1 == uid && p.2 == r.id) = true :=
        List.any_eq_true.mpr ⟨q, hqorig, by simp [hq1, hq2, huid]⟩
      have hname := hother r hrroles hrid hheld
      simp [hname]

/-- Witness for C7: removing a missing assignment is NotFound; removing the
held one succeeds, after which the user no longer has the role. -/
theorem C7_remove_role_from_user_witness :
    remove_role_from_user dbRemove 1 999 =
        Except.error (RbacError.http 404 "Role assignment not found")
      ∧ User.has_role { dbRemove with user_roles := [] }
          { id := 1, username := "carol", email := "carol@bank.example" } "Viewer" = false :=
  ⟨(C7_remove_role_from_user dbRemove 1 999).1.mpr (by decide),
   (C7_remove_role_from_user dbRemove 1 1).2
     { dbRemove with user_roles := [] } rfl
     { id := 1, name := "Viewer" } rfl (by decide)
     { id := 1, username := "carol", email := "carol@bank.example" } rfl⟩

/-! Frame lemmas for the bootstrapper's two loops. -/

/-- Seeding a permission does not touch the `roles` table. -/
theorem seed_permission_roles (db : DB) (t : String × String × String) :
    (seed_permission db t).roles = db.roles := by
  unfold seed_permission
  split <;> rfl

/-- Seeding a permission does not touch role membership. -/
theorem seed_permission_role_permissions (db : DB) (t : String × String × String) :
    (seed_permission db t).role_permissions = db.role_permissions := by
  unfold seed_permission
  split <;> rfl

/-- Seeding a permission does not touch the role id sequence. -/
theorem seed_permission_next_role_id (db : DB) (t : String × String × String) :
    (seed_permission db t).next_role_id = db.next_role_id := by
  unfold seed_permission
  split <;> rfl

/-- Seeding a role does not touch the `permissions` table. -/
theorem seed_role_keeps_permissions (db : DB) (t : String × String) :
    (seed_role db t).permissions = db.permissions := by
  unfold seed_role
  split <;> rfl

/-- The permission loop does not touch the `roles` table. -/
theorem seed_permission_foldl_roles (ts : List (String × String × String)) (db : DB) :
    (ts.foldl seed_permission db).roles = db.roles := by
  induction ts generalizing db with
  | nil => rfl
  | cons t ts ih => rw [List.foldl_cons, ih, seed_permission_roles]

/-- The permission loop does not touch role membership. -/
theorem seed_permission_foldl_role_permissions (ts : List (String × String × String))
    (db : DB) :
    (ts.foldl seed_permission db).role_permissions = db.role_permissions := by
  induction ts generalizing db with
  | nil => rfl
  | cons t ts ih => rw [List.foldl_cons, ih, seed_permission_role_permissions]

/-- The permission loop does not touch the role id sequence. -/
theorem seed_permission_foldl_next_role_id (ts : List (String × String × String))
    (db : DB) :
    (ts.foldl seed_permission db).next_role_id = db.next_role_id := by
  induction ts generalizing db with
  | nil => rfl
  | cons t ts ih => rw [List.foldl_cons, ih, seed_permission_next_role_id]

/-- The role loop does not touch the `permissions` table. -/
theorem seed_role_foldl_permissions (ts : List (String × String)) (db : DB) :
    (ts.foldl seed_role db).permissions = db.permissions := by
  induction ts generalizing db with
  | nil => rfl
  | cons t ts ih => rw [List.foldl_cons, ih, seed_role_keeps_permissions]

/-! Existence lemmas: the loops only add rows, and each iteration
establishes its own row. -/

/-- A permission pair that exists keeps existing through one seeding step. -/
theorem permission_exists_mono (db : DB) (t : String × String × String) (a r : String)
    (h : permission_exists db a r = true) :
    permission_exists (seed_permission db t) a r = true := by
  unfold seed_permission
  split
  · exact h
  · unfold permission_exists at h ⊢
    simp [List.any_append, h]

/-- After its seeding step, a built-in permission pair exists. -/
theorem permission_exists_seed_self (db : DB) (t : String × String × String) :
    permission_exists (seed_permission db t) t.1 t.2.1 = true := by
  unfold seed_permission
  split
  case isTrue h => exact h
  case isFalse h =>
    unfold permission_exists
    simp [List.any_append]

/-- A permission pair that exists keeps existing through the whole loop. -/
theorem permission_exists_foldl_mono (ts : List (String × String × String)) (db : DB)
    (a r : String) (h : permission_exists db a r = true) :
    permission_exists (ts.foldl seed_permission db) a r = true := by
  induction ts generalizing db with
  | nil => exact h
  | cons t ts ih => exact ih _ (permission_exists_mono db t a r h)

/-- After the permission loop, every built-in pair exists. -/
theorem permission_exists_foldl_self (ts : List (String × String × String)) (db : DB)
    (t : String × String × String) (ht : t ∈ ts) :
    permission_exists (ts.foldl seed_permission db) t.1 t.2.1 = true := by
  induction ts generalizing db with
  | nil => cases ht
  | cons hd tl ih =>
    rw [List.foldl_cons]
    rcases List.mem_cons.mp ht with hEq | hmem
    · subst hEq
      exact permission_exists_foldl_mono tl _ t.1 t.2.1 (permission_exists_seed_self db t)
    · exact ih _ hmem

/-- When every built-in pair already exists, the permission loop is the
identity. -/
theorem seed_permission_foldl_id (ts : List (String × String × String)) (db : DB)
    (h : ∀ t ∈ ts, permission_exists db t.1 t.2.1 = true) :
    ts.foldl seed_permission db = db := by
  induction ts with
  | nil => rfl
  | cons hd tl ih =>
    rw [List.foldl_cons]
    have h1 : seed_permission db hd = db := by
      unfold seed_permission
      rw [if_pos (h hd (List.mem_cons_self hd tl))]
    rw [h1]
    exact ih (fun t ht => h t (List.mem_cons_of_mem hd ht))

/-- A role name that exists keeps existing through one seeding step. -/
theorem role_exists_mono (db : DB) (t : String × String) (n : String)
    (h : role_exists db n = true) :
    role_exists (seed_role db t) n = true := by
  unfold seed_role
  split
  · exact h
  · unfold role_exists at h ⊢
    simp [List.any_append, h]

/-- After its seeding step, a built-in role name exists. -/
theorem role_exists_seed_self (db : DB) (t : String × String) :
    role_exists (seed_role db t) t.1 = true := by
  unfold seed_role
  split
  case isTrue h => exact h
  case isFalse h =>
    unfold role_exists
    simp [List.any_append]

/-- A role name that exists keeps existing through the whole loop. -/
theorem role_exists_foldl_mono (ts : List (String × String)) (db : DB) (n : String)
    (h : role_exists db n = true) :
    role_exists (ts.foldl seed_role db) n = true := by
  induction ts generalizing db with
  | nil => exact h
  | cons t ts ih => exact ih _ (role_exists_mono db t n h)

/-- After the role loop, every built-in role name exists. -/
theorem role_exists_foldl_self (ts : List (String × String)) (db : DB)
    (t : String × String) (ht : t ∈ ts) :
    role_exists (ts.foldl seed_role db) t.1 = true := by
  induction ts generalizing db with
  | nil => cases ht
  | cons hd tl ih =>
    rw [List.foldl_cons]
    rcases List.mem_cons.mp ht with hEq | hmem
    · subst hEq
      exact role_exists_foldl_mono tl _ t.1 (role_exists_seed_self db t)
    · exact ih _ hmem

/-- When every built-in role name already exists, the role loop is the
identity. -/
theorem seed_role_foldl_id (ts : List (String × String)) (db : DB)
    (h : ∀ t ∈ ts, role_exists db t.1 = true) :
    ts.foldl seed_role db = db := by
  induction ts with
  | nil => rfl
  | cons hd tl ih =>
    rw [List.foldl_cons]
    have h1 : seed_role db hd = db := by
      unfold seed_role
      rw [if_pos (h hd (List.mem_cons_self hd tl))]
    rw [h1]
    exact ih (fun t ht => h t (List.mem_cons_of_mem hd ht))

/-- A second bootstrapper run changes nothing at all: every built-in
permission pair and role name already exists after the first run. -/
theorem initialize_default_data_idem (db : DB) :
    initialize_default_data (initialize_default_data db) = initialize_default_data db := by
  unfold initialize_default_data
  have hP : ∀ t ∈ default_permissions,
      permission_exists
        (default_roles.foldl seed_role (default_permissions.foldl seed_permission db))
        t.1 t.2.1 = true := by
    intro t ht
    have h1 := permission_exists_foldl_self default_permissions db t ht
    unfold permission_exists at h1 ⊢
    rw [seed_role_foldl_permissions]
    exact h1
  rw [seed_permission_foldl_id _ _ hP]
  exact seed_role_foldl_id _ _
    (fun t ht => role_exists_foldl_self default_roles _ t ht)

/-- Claim C4: running `initialize_default_data` twice from any store state
leaves the same number of Permission rows and the same number of Role rows
as running it once — the second run inserts nothing. -/
theorem C4_initialize_twice_same_counts (db : DB) :
    (initialize_default_data (initialize_default_data db)).permissions.length
        = (initialize_default_data db).permissions.length
    ∧ (initialize_default_data (initialize_default_data db)).roles.length
        = (initialize_default_data db).roles.length := by
  rw [initialize_default_data_idem]
  exact ⟨rfl, rfl⟩

/-- One role-seeding step only appends membership rows, all owned by fresh
role ids. -/
theorem seed_role_rp_extend (db : DB) (t : String × String) :
    ∃ extra, (seed_role db t).role_permissions = db.role_permissions ++ extra
      ∧ (∀ q ∈ extra, db.next_role_id ≤ q.1)
      ∧ db.next_role_id ≤ (seed_role db t).next_role_id := by
  unfold seed_role
  split
  · exact ⟨[], by simp, by simp, le_refl _⟩
  · refine ⟨_, rfl, ?_, ?_⟩
    · intro q hq
      rw [List.mem_map] at hq
      obtain ⟨p, _, rfl⟩ := hq
      exact le_refl _
    · exact Nat.le_succ _

/-- The role loop only appends membership rows, all owned by fresh role
ids. -/
theorem seed_role_foldl_rp_extend (ts : List (String × String)) (db : DB) :
    ∃ extra, (ts.foldl seed_role db).role_permissions = db.role_permissions ++ extra
      ∧ (∀ q ∈ extra, db.next_role_id ≤ q.1)
      ∧ db.next_role_id ≤ (ts.foldl seed_role db).next_role_id := by
  induction ts generalizing db with
  | nil => exact ⟨[], by simp, by simp, le_refl _⟩
  | cons hd tl ih =>
    obtain ⟨e1, h1, h1b, h1n⟩ := seed_role_rp_extend db hd
    obtain ⟨e2, h2, h2b, h2n⟩ := ih (seed_role db hd)
    rw [List.foldl_cons]
    refine ⟨e1 ++ e2, ?_, ?_, ?_⟩
    · rw [h2, h1, List.append_assoc]
    · intro q hq
      rcases List.mem_append.mp hq with hq1 | hq2
      · exact h1b q hq1
      · exact le_trans h1n (h2b q hq2)
    · exact le_trans h1n h2n

/-- Claim C5: for every role that exists before the bootstrapper runs (in a
store whose role-id sequence is ahead of every existing role id), the
run leaves that role's membership rows exactly unchanged — the attach step
only ever targets roles created during the same run. -/
theorem C5_existing_role_membership_unchanged (db : DB)
    (hWF : ∀ r ∈ db.roles, r.id < db.next_role_id)
    (role : Role) (hr : role ∈ db.roles) :
    (initialize_default_data db).role_permissions.filter (fun q => q.1 == role.id)
      = db.role_permissions.filter (fun q => q.1 == role.id) := by
  unfold initialize_default_data
  obtain ⟨extra, he, hbound, _⟩ :=
    seed_role_foldl_rp_extend default_roles (default_permissions.foldl seed_permission db)
  rw [he, seed_permission_foldl_role_permissions, List.filter_append]
  have hnil : extra.filter (fun q => q.1 == role.id) = [] := by
    rw [List.filter_eq_nil_iff]
    intro q hq
    have h1 : db.next_role_id ≤ q.1 := by
      rw [← seed_permission_foldl_next_role_id default_permissions db]
      exact hbound q hq
    have h2 : role.id < q.1 := lt_of_lt_of_le (hWF role hr) h1
    simp only [beq_iff_eq]
    exact h2.ne'
  rw [hnil, List.append_nil]

/-- Witness for C5: a "Viewer" role existing before the run keeps exactly
its one membership row, although the run adds "read" permissions that the
built-in Viewer rule would have attached. -/
theorem C5_existing_role_membership_unchanged_witness :
    (initialize_default_data dbGap).role_permissions.filter (fun q => q.1 == (1 : Nat))
      = dbGap.role_permissions.filter (fun q => q.1 == (1 : Nat)) :=
  C5_existing_role_membership_unchanged dbGap (by decide)
    { id := 1, name := "Viewer" } (by decide)

/-- For a store whose only user is `u` and whose only assignment gives `u`
the role id `rid`, the held roles are exactly the roles with that id. -/
theorem rolesOf_single (db : DB) (u : User) (rid : Nat) :
    rolesOf { db with users := [u], user_roles := [(u.id, rid)] } u
      = db.roles.filter (fun r => rid == r.id) := by
  unfold rolesOf
  simp

/-- Permission check for a user holding exactly the role id `rid`. -/
theorem check_single_user (db : DB) (u : User) (rid : Nat) (a r : String) :
    check_user_permission { db with users := [u], user_roles := [(u.id, rid)] } u.id a r
      = (db.roles.filter (fun ro => rid == ro.id)).any (fun role =>
          (permissionsOf db role).any (fun p => p.action == a && p.resource == r)) := by
  have hfind : get_user_by_id { db with users := [u], user_roles := [(u.id, rid)] } u.id
      = some u := by
    unfold get_user_by_id
    simp
  have hdeleg : check_user_permission { db with users := [u], user_roles := [(u.id, rid)] } u.id a r
      = User.has_permission { db with users := [u], user_roles := [(u.id, rid)] } u a r := by
    unfold check_user_permission
    rw [hfind]
  rw [hdeleg]
  unfold User.has_permission
  rw [rolesOf_single]
  rfl

/-- Claim C6: after seeding an empty store, a user holding only the "Admin"
role passes the ("edit", "collateral_evaluation") check, while a user
holding only the "Viewer" role fails it but passes the
("read", "collateral_evaluation") check. -/
theorem C6_seeded_admin_viewer (u : User) (rA rV : Role)
    (hA : get_role_by_name (initialize_default_data emptyDB) "Admin" = some rA)
    (hV : get_role_by_name (initialize_default_data emptyDB) "Viewer" = some rV) :
    check_user_permission { initialize_default_data emptyDB with users := [u], user_roles := [(u.id, rA.id)] } u.id "edit" "collateral_evaluation" = true
    ∧ check_user_permission { initialize_default_data emptyDB with users := [u], user_roles := [(u.id, rV.id)] } u.id "edit" "collateral_evaluation" = false
    ∧ check_user_permission { initialize_default_data emptyDB with users := [u], user_roles := [(u.id, rV.id)] } u.id "read" "collateral_evaluation" = true := by
  have hA' : rA = { id := 4, name := "Admin", description := some "Full system administration access" } := by
    rw [show get_role_by_name (initialize_default_data emptyDB) "Admin" = some { id := 4, name := "Admin", description := some "Full system administration access" } from rfl] at hA
    exact (Option.some.inj hA).symm
  have hV' : rV = { id := 1, name := "Viewer", description := some "Can only view collateral evaluation data" } := by
    rw [show get_role_by_name (initialize_default_data emptyDB) "Viewer" = some { id := 1, name := "Viewer", description := some "Can only view collateral evaluation data" } from rfl] at hV
    exact (Option.some.inj hV).symm
  subst hA'
  subst hV'
  refine ⟨?_, ?_, ?_⟩ <;> rw [check_single_user] <;> rfl

/-- Witness for C6 at a concrete user. -/
theorem C6_seeded_admin_viewer_witness :
    check_user_permission { initialize_default_data emptyDB with users := [userSeeded], user_roles := [(userSeeded.id, 4)] } userSeeded.id "edit" "collateral_evaluation" = true
    ∧ check_user_permission { initialize_default_data emptyDB with users := [userSeeded], user_roles := [(userSeeded.id, 1)] } userSeeded.id "edit" "collateral_evaluation" = false
    ∧ check_user_permission { initialize_default_data emptyDB with users := [userSeeded], user_roles := [(userSeeded.id, 1)] } userSeeded.id "read" "collateral_evaluation" = true :=
  C6_seeded_admin_viewer userSeeded
    { id := 4, name := "Admin", description := some "Full system administration access" }
    { id := 1, name := "Viewer", description := some "Can only view collateral evaluation data" }
    rfl rfl

end RBAC
